import Mathlib

/-!
# Verification of the private-media authorization logic

Shallow embedding of `marnies_maintenance_manager/jobs/permissions.py`:
the `private_media_permissions` entry point and its helper functions,
together with the POSIX `pathlib.Path` behaviour it relies on and the
Django ORM `get` lookup it performs for agent users.

Conventions of the embedding:

* A Python `Path` is represented by its `parts` tuple (a `List String`).
  `Path(s).parts` for a relative POSIX path is the list of `/`-separated
  segments of `s` with empty segments and `"."` segments dropped; for an
  absolute path the anchor `"/"` is prepended and `is_absolute` is true.
  (CPython keeps a `"//"` anchor distinct from `"/"`; that distinction is
  irrelevant here because absolute paths are rejected before their parts
  are consulted, so the anchor is uniformly modelled as `"/"`.)
* A Python function that may raise is modelled with `Except PyExn`;
  the only exception reachable in this module is the `ValueError` raised
  by the two-value tuple unpacking `dirname, basename = path.parts`
  when the path does not have exactly two parts.
* The Django ORM is modelled by a `Db` holding the list of `Job` rows;
  `Job.objects.get(**{field_name: path})` becomes `objects_get`, which
  raises `DoesNotExist` on zero matches and `MultipleObjectsReturned`
  on two or more.  Every function threads the `Db` through and returns
  it, so that read-onlyness is a provable statement rather than a
  modelling assumption.
* `job.agent == user` is Django model-instance equality, i.e. primary-key
  equality; users carry an `id` field for it.
-/

deriving instance DecidableEq for Except

/-- The `ValueError` raised by `dirname, basename = path.parts` when the
tuple does not have exactly two elements. -/
inductive PyExn where
  | valueError
deriving DecidableEq, Repr

/-- The two exceptions `Job.objects.get` can raise that
`_is_file_accessible_by_user` catches. -/
inductive GetExn where
  | doesNotExist
  | multipleObjectsReturned
deriving DecidableEq, Repr

/-- Modelled from the spec: the Django `User` model
(`marnies_maintenance_manager/users/models.py`) is not part of the given
source subset; its test helpers construct users with boolean fields
`is_agent`, `is_superuser`, `is_marnie`, and `is_authenticated` is the
standard auth attribute (false exactly for anonymous principals).
The spec's "contractor" role is the `is_marnie` flag.  `id` is the
primary key, which Django model equality compares. -/
structure User where
  is_authenticated : Bool
  is_superuser : Bool
  is_marnie : Bool
  is_agent : Bool
  id : Nat
deriving DecidableEq, Repr

/-- Modelled from the spec: the `Job` model
(`marnies_maintenance_manager/jobs/models.py`) is not part of the given
source subset.  The authorizer consumes its `agent` foreign key (stored
here as the owning user's primary key) and the four file-reference
fields, each holding the stored relative path string of the uploaded
document (the `FileField.name` value). -/
structure Job where
  agent : Nat
  quote : String
  deposit_proof_of_payment : String
  invoice : String
  final_payment_pop : String
deriving DecidableEq, Repr

/-- The four Job file fields a lookup can be keyed on
(the `field_name` strings passed to `_is_file_accessible_by_user`). -/
inductive FieldName where
  | quote
  | deposit_proof_of_payment
  | invoice
  | final_payment_pop
deriving DecidableEq, Repr

/-- Reading the field named `fn` off a job row. -/
def Job.getField (j : Job) : FieldName → String
  | FieldName.quote => j.quote
  | FieldName.deposit_proof_of_payment => j.deposit_proof_of_payment
  | FieldName.invoice => j.invoice
  | FieldName.final_payment_pop => j.final_payment_pop

/-- The job table visible to the ORM at the time of the check. -/
structure Db where
  jobs : List Job
deriving DecidableEq, Repr

/-- Splitting a character list at every `/`, keeping empty pieces —
the semantics of Python's `str.split("/")`, written structurally over
the character list so that it evaluates inside the kernel. -/
def splitSlashAux : List Char → List Char → List String
  | [], acc => [String.mk acc.reverse]
  | c :: cs, acc =>
      if c == '/' then String.mk acc.reverse :: splitSlashAux cs []
      else splitSlashAux cs (c :: acc)

/-- Python's `s.split("/")`. -/
def splitSlash (s : String) : List String :=
  splitSlashAux s.data []

/-- Python's `s.endswith(suffix)` (structural over the characters). -/
def endswith (s suffix : String) : Bool :=
  suffix.data.isSuffixOf s.data

/-- Python's `s.lower()` (structural over the characters). -/
def pyLower (s : String) : String :=
  String.mk (s.data.map Char.toLower)

/-- `pathlib`: the named segments of the path string — split on `/`,
dropping empty segments and `"."` segments. -/
def pathSegments (s : String) : List String :=
  (splitSlash s).filter (fun seg => seg != "" && seg != ".")

/-- `pathlib`: `Path(s).is_absolute()` for POSIX paths — the raw string
begins with `/`. -/
def is_absolute (s : String) : Bool :=
  match s.data with
  | [] => false
  | c :: _ => c == '/'

/-- `pathlib`: `Path(s).parts` — the anchor (modelled uniformly as `"/"`)
followed by the named segments for an absolute path, the named segments
alone for a relative one. -/
def pathParts (s : String) : List String :=
  if is_absolute s then "/" :: pathSegments s else pathSegments s

/-- Joining path segments with `/`. -/
def joinSlash : List String → String
  | [] => ""
  | [p] => p
  | p :: rest => p ++ "/" ++ joinSlash rest

/-- `pathlib`: `str(Path)` as rebuilt from the parts — `"."` for an empty
relative path, otherwise the anchor and/or segments joined with `/`.
This is the value the ORM compares the stored field strings against. -/
def strOfParts : List String → String
  | [] => "."
  | "/" :: rest => "/" ++ joinSlash rest
  | parts => joinSlash parts

/-- `permissions.py` line 21: the directory-traversal marker. -/
def TRAVERSE : String := ".."

/-- `Job.objects.get(**{field_name: value})`: raises `DoesNotExist` on
zero matches and `MultipleObjectsReturned` on several; a read-only query,
so the database comes back unchanged. -/
def objects_get (db : Db) (field_name : FieldName) (value : String) :
    (Except GetExn Job) × Db :=
  (match db.jobs.filter (fun j => j.getField field_name == value) with
    | [] => Except.error GetExn.doesNotExist
    | [j] => Except.ok j
    | _ :: _ :: _ => Except.error GetExn.multipleObjectsReturned,
   db)

/-- `_is_quote_file`: unpacks `path.parts` into `(dirname, basename)` —
raising `ValueError` unless there are exactly two parts — and checks
`dirname == "quotes"` and `basename.endswith(".pdf")`. -/
def _is_quote_file (path : List String) : Except PyExn Bool :=
  match path with
  | [dirname, basename] =>
      Except.ok (dirname == "quotes" && endswith basename ".pdf")
  | _ => Except.error PyExn.valueError

/-- `_is_deposit_proof_of_payment_file`: same shape with directory
`deposit_pops`. -/
def _is_deposit_proof_of_payment_file (path : List String) :
    Except PyExn Bool :=
  match path with
  | [dirname, basename] =>
      Except.ok (dirname == "deposit_pops" && endswith basename ".pdf")
  | _ => Except.error PyExn.valueError

/-- `_is_invoice_file`: same shape with directory `invoices`. -/
def _is_invoice_file (path : List String) : Except PyExn Bool :=
  match path with
  | [dirname, basename] =>
      Except.ok (dirname == "invoices" && endswith basename ".pdf")
  | _ => Except.error PyExn.valueError

/-- `_is_final_payment_pop_file`: same shape with directory
`final_payment_pops`. -/
def _is_final_payment_pop_file (path : List String) : Except PyExn Bool :=
  match path with
  | [dirname, basename] =>
      Except.ok (dirname == "final_payment_pops" && endswith basename ".pdf")
  | _ => Except.error PyExn.valueError

/-- `_is_file_accessible_by_user`: Marnie (the contractor) gets access to
everything; an agent triggers the ORM lookup keyed on `field_name` with
the stringified path, with both lookup exceptions caught and turned into
denial, and an ownership comparison `job.agent == user` on success; any
other role is denied. -/
def _is_file_accessible_by_user (db : Db) (user : User)
    (path : List String) (field_name : FieldName) : Bool × Db :=
  if user.is_marnie then
    (true, db)
  else if user.is_agent then
    match objects_get db field_name (strOfParts path) with
    | (Except.error GetExn.doesNotExist, db2) => (false, db2)
    | (Except.error GetExn.multipleObjectsReturned, db2) => (false, db2)
    | (Except.ok job, db2) => (job.agent == user.id, db2)
  else
    (false, db)

/-- `_access_allowed_for_quote_file`. -/
def _access_allowed_for_quote_file (db : Db) (user : User)
    (path : List String) : Bool × Db :=
  _is_file_accessible_by_user db user path FieldName.quote

/-- `_access_allowed_for_deposit_proof_of_payment_file`. -/
def _access_allowed_for_deposit_proof_of_payment_file (db : Db)
    (user : User) (path : List String) : Bool × Db :=
  _is_file_accessible_by_user db user path FieldName.deposit_proof_of_payment

/-- `_access_allowed_for_invoice_file`. -/
def _access_allowed_for_invoice_file (db : Db) (user : User)
    (path : List String) : Bool × Db :=
  _is_file_accessible_by_user db user path FieldName.invoice

/-- `_access_allowed_for_final_payment_pop_file`. -/
def _access_allowed_for_final_payment_pop_file (db : Db) (user : User)
    (path : List String) : Bool × Db :=
  _is_file_accessible_by_user db user path FieldName.final_payment_pop

/-- Lifts the boolean returned by an `_access_allowed_for_*` helper into
the exception-carrying result of `_access_allowed`. -/
def liftOk (r : Bool × Db) : (Except PyExn Bool) × Db :=
  (Except.ok r.1, r.2)

/-- `_access_allowed`: superusers are allowed unconditionally; otherwise
the path is classified by the four `_is_*_file` predicates in source
order (each of which can raise `ValueError`) and the matching category's
access helper decides; an unclassified path is denied. -/
def _access_allowed (db : Db) (user : User) (path : List String) :
    (Except PyExn Bool) × Db :=
  if user.is_superuser then
    (Except.ok true, db)
  else
    match _is_quote_file path with
    | Except.error e => (Except.error e, db)
    | Except.ok true => liftOk (_access_allowed_for_quote_file db user path)
    | Except.ok false =>
      match _is_deposit_proof_of_payment_file path with
      | Except.error e => (Except.error e, db)
      | Except.ok true =>
          liftOk (_access_allowed_for_deposit_proof_of_payment_file db user path)
      | Except.ok false =>
        match _is_invoice_file path with
        | Except.error e => (Except.error e, db)
        | Except.ok true => liftOk (_access_allowed_for_invoice_file db user path)
        | Except.ok false =>
          match _is_final_payment_pop_file path with
          | Except.error e => (Except.error e, db)
          | Except.ok true =>
              liftOk (_access_allowed_for_final_payment_pop_file db user path)
          | Except.ok false => (Except.ok false, db)

/-- `_access_denied`. -/
def _access_denied : Bool := false

/-- `private_media_permissions`: the `private_storage` permission
callback.  Denies unauthenticated requests, converts the raw relative
name to a `Path`, denies absolute paths and paths with a `..` part, and
otherwise defers to `_access_allowed` (whose `ValueError`, if any,
propagates to the caller). -/
def private_media_permissions (db : Db) (user : User) (path : String) :
    (Except PyExn Bool) × Db :=
  if !user.is_authenticated then
    (Except.ok _access_denied, db)
  else
    let path2 := pathParts path
    if is_absolute path then
      (Except.ok _access_denied, db)
    else if path2.contains TRAVERSE then
      (Except.ok _access_denied, db)
    else
      match _access_allowed db user path2 with
      | (Except.error e, db2) => (Except.error e, db2)
      | (Except.ok false, db2) => (Except.ok _access_denied, db2)
      | (Except.ok true, db2) => (Except.ok true, db2)

/-- The spec's §4.1 table: the Job field matching each category
directory name (used only to state claims about the agent lookup). -/
def categoryField (dirname : String) : FieldName :=
  if dirname == "quotes" then FieldName.quote
  else if dirname == "deposit_pops" then FieldName.deposit_proof_of_payment
  else if dirname == "invoices" then FieldName.invoice
  else FieldName.final_payment_pop

-- Sanity checks of the embedding on concrete inputs.
lemma sanity_check_1 : pathParts "quotes/test.pdf" = ["quotes", "test.pdf"] := by decide
lemma sanity_check_2 : pathParts "/etc/passwd" = ["/", "etc", "passwd"] := by decide
lemma sanity_check_3 : pathParts "quotes/../x.pdf" = ["quotes", "..", "x.pdf"] := by decide
lemma sanity_check_4 : pathParts "" = [] := by decide
lemma sanity_check_5 : pathParts "./a//b/" = ["a", "b"] := by decide
lemma sanity_check_6 :
    (private_media_permissions ⟨[]⟩ ⟨true, false, false, true, 1⟩ "abc").1 =
      Except.error PyExn.valueError := by decide
lemma sanity_check_7 :
    (private_media_permissions ⟨[]⟩ ⟨true, false, true, false, 1⟩
        "quotes/abc.txt").1 = Except.ok false := by decide
lemma sanity_check_8 :
    (private_media_permissions ⟨[⟨1, "quotes/abc.pdf", "", "", ""⟩]⟩
        ⟨true, false, false, true, 1⟩ "quotes/abc.pdf").1 =
      Except.ok true := by decide
lemma sanity_check_9 :
    (private_media_permissions ⟨[⟨1, "quotes/abc.pdf", "", "", ""⟩]⟩
        ⟨true, false, false, true, 2⟩ "quotes/abc.pdf").1 =
      Except.ok false := by decide
lemma sanity_check_10 :
    (private_media_permissions ⟨[]⟩ ⟨true, true, false, false, 1⟩
        "nonsense.bin").1 = Except.ok true := by decide

/-! ## Helper lemmas about the embedding -/

/-- The ORM lookup is read-only: the database comes back unchanged. -/
lemma objects_get_snd (db : Db) (fn : FieldName) (v : String) :
    (objects_get db fn v).2 = db := rfl

/-- `_is_file_accessible_by_user` is read-only. -/
lemma accessible_snd (db : Db) (u : User) (path : List String)
    (fn : FieldName) : (_is_file_accessible_by_user db u path fn).2 = db := by
  unfold _is_file_accessible_by_user
  cases hm : u.is_marnie
  · cases ha : u.is_agent
    · simp
    · simp only [Bool.false_eq_true, if_false, if_true]
      rcases hg : objects_get db fn (strOfParts path) with ⟨r, db2⟩
      have hdb : db2 = db := by
        have := objects_get_snd db fn (strOfParts path)
        rw [hg] at this
        exact this
      rcases r with e | j
      · cases e <;> simp [hg, hdb]
      · simp [hg, hdb]
  · simp [hm]

/-- Marnie (the contractor flag) short-circuits the accessibility
helper to an unconditional allow. -/
lemma accessible_marnie (db : Db) (u : User) (path : List String)
    (fn : FieldName) (hm : u.is_marnie = true) :
    _is_file_accessible_by_user db u path fn = (true, db) := by
  unfold _is_file_accessible_by_user
  simp [hm]

/-- For an agent who is not Marnie, the accessibility helper grants
access exactly when the lookup keyed on `fn` matches a single job row
owned by the requesting user. -/
lemma accessible_agent_iff (db : Db) (u : User) (path : List String)
    (fn : FieldName) (hm : u.is_marnie = false) (ha : u.is_agent = true) :
    (_is_file_accessible_by_user db u path fn).1 = true ↔
      ∃ j, db.jobs.filter (fun j => j.getField fn == strOfParts path) = [j] ∧
        j.agent = u.id := by
  unfold _is_file_accessible_by_user objects_get
  simp only [hm, ha, Bool.false_eq_true, if_false, if_true]
  cases hfil : db.jobs.filter (fun j => j.getField fn == strOfParts path) with
  | nil => simp [hfil]
  | cons j t =>
    cases t with
    | nil => simp [hfil, beq_iff_eq]
    | cons j2 t2 => simp [hfil]

/-- Superusers short-circuit `_access_allowed` to allow. -/
lemma access_allowed_su (db : Db) (u : User) (path : List String)
    (hsu : u.is_superuser = true) :
    _access_allowed db u path = (Except.ok true, db) := by
  unfold _access_allowed
  simp [hsu]

/-- Normal form of `_access_allowed` on a two-part path for a
non-superuser: the four classifications are tried in source order and
the matching one hands over to the accessibility helper keyed on its
field; an unclassified path is denied. -/
lemma access_allowed_two (db : Db) (u : User) (d f : String)
    (hsu : u.is_superuser = false) :
    _access_allowed db u [d, f] =
      if d == "quotes" && endswith f ".pdf" then
        liftOk (_is_file_accessible_by_user db u [d, f] FieldName.quote)
      else if d == "deposit_pops" && endswith f ".pdf" then
        liftOk (_is_file_accessible_by_user db u [d, f]
          FieldName.deposit_proof_of_payment)
      else if d == "invoices" && endswith f ".pdf" then
        liftOk (_is_file_accessible_by_user db u [d, f] FieldName.invoice)
      else if d == "final_payment_pops" && endswith f ".pdf" then
        liftOk (_is_file_accessible_by_user db u [d, f]
          FieldName.final_payment_pop)
      else
        (Except.ok false, db) := by
  unfold _access_allowed _access_allowed_for_quote_file
    _access_allowed_for_deposit_proof_of_payment_file
    _access_allowed_for_invoice_file _access_allowed_for_final_payment_pop_file
    _is_quote_file _is_deposit_proof_of_payment_file _is_invoice_file
    _is_final_payment_pop_file
  cases hq : d == "quotes" && endswith f ".pdf" <;>
    cases hdp : d == "deposit_pops" && endswith f ".pdf" <;>
      cases hinv : d == "invoices" && endswith f ".pdf" <;>
        cases hfp : d == "final_payment_pops" && endswith f ".pdf" <;>
          simp [hsu, hq, hdp, hinv, hfp]

/-- `_access_allowed` is read-only. -/
lemma access_allowed_snd (db : Db) (u : User) (path : List String) :
    (_access_allowed db u path).2 = db := by
  cases hsu : u.is_superuser
  · cases path with
    | nil => simp [_access_allowed, hsu, _is_quote_file]
    | cons d t =>
      cases t with
      | nil => simp [_access_allowed, hsu, _is_quote_file]
      | cons f t2 =>
        cases t2 with
        | nil =>
          rw [access_allowed_two db u d f hsu]
          cases hq : d == "quotes" && endswith f ".pdf" <;>
            cases hdp : d == "deposit_pops" && endswith f ".pdf" <;>
              cases hinv : d == "invoices" && endswith f ".pdf" <;>
                cases hfp : d == "final_payment_pops" && endswith f ".pdf" <;>
                  simp [hq, hdp, hinv, hfp, liftOk, accessible_snd]
        | cons g t3 => simp [_access_allowed, hsu, _is_quote_file]
  · simp [access_allowed_su db u path hsu]

/-- A path without exactly two parts makes every classifier raise
`ValueError`; for a non-superuser `_access_allowed` propagates it. -/
lemma access_allowed_bad_shape (db : Db) (u : User) (path : List String)
    (hsu : u.is_superuser = false) (hlen : path.length ≠ 2) :
    _access_allowed db u path = (Except.error PyExn.valueError, db) := by
  unfold _access_allowed
  cases path with
  | nil => simp [hsu, _is_quote_file]
  | cons d t =>
    cases t with
    | nil => simp [hsu, _is_quote_file]
    | cons f t2 =>
      cases t2 with
      | nil => exact absurd rfl hlen
      | cons g t3 => simp [hsu, _is_quote_file]

/-- Unauthenticated requests are denied before any path handling. -/
lemma pmp_unauth (db : Db) (u : User) (p : String)
    (h : u.is_authenticated = false) :
    private_media_permissions db u p = (Except.ok false, db) := by
  unfold private_media_permissions
  simp [h, _access_denied]

/-- Absolute paths are denied right after authentication. -/
lemma pmp_abs (db : Db) (u : User) (p : String)
    (hauth : u.is_authenticated = true) (habs : is_absolute p = true) :
    private_media_permissions db u p = (Except.ok false, db) := by
  unfold private_media_permissions
  simp [hauth, habs, _access_denied]

/-- Paths with a `..` part are denied right after the absolute check. -/
lemma pmp_trav (db : Db) (u : User) (p : String)
    (hauth : u.is_authenticated = true) (habs : is_absolute p = false)
    (htrav : (pathParts p).contains TRAVERSE = true) :
    private_media_permissions db u p = (Except.ok false, db) := by
  unfold private_media_permissions
  simp only [hauth, habs, htrav, Bool.not_true, Bool.false_eq_true,
    eq_self_iff_true, ite_true, ite_false, if_true, if_false, _access_denied]

/-- Once the authentication and path-shape gates pass, the callback
returns exactly what `_access_allowed` returns (the final `match` is the
identity up to the `_access_denied` alias). -/
lemma pmp_eval (db : Db) (u : User) (p : String)
    (hauth : u.is_authenticated = true) (habs : is_absolute p = false)
    (htrav : (pathParts p).contains TRAVERSE = false) :
    private_media_permissions db u p = _access_allowed db u (pathParts p) := by
  unfold private_media_permissions
  simp only [hauth, habs, htrav, Bool.not_true, Bool.false_eq_true,
    eq_self_iff_true, ite_true, ite_false, if_true, if_false, _access_denied]
  rcases h : _access_allowed db u (pathParts p) with ⟨r, db2⟩
  rcases r with e | b
  · simp [h]
  · cases b <;> simp [h, _access_denied]

/-- The whole permission callback is read-only. -/
lemma pmp_snd (db : Db) (u : User) (p : String) :
    (private_media_permissions db u p).2 = db := by
  cases hauth : u.is_authenticated
  · simp [pmp_unauth db u p hauth]
  · cases habs : is_absolute p
    · cases htrav : (pathParts p).contains TRAVERSE
      · rw [pmp_eval db u p hauth habs htrav]
        exact access_allowed_snd db u (pathParts p)
      · simp [pmp_trav db u p hauth habs htrav]
    · simp [pmp_abs db u p hauth habs]

/-- A two-part path whose head is not the anchor comes from a relative
path string. -/
lemma is_absolute_false_of_parts (p : String) (d f : String)
    (hp : pathParts p = [d, f]) (hd : d ≠ "/") : is_absolute p = false := by
  cases habs : is_absolute p
  · rfl
  · exfalso
    unfold pathParts at hp
    rw [habs] at hp
    simp at hp
    exact hd hp.1.symm

/-- A two-part path avoids the traversal marker when neither part is
`".."`. -/
lemma contains_traverse_two (d f : String) (hd : d ≠ "..") (hf : f ≠ "..") :
    ([d, f].contains TRAVERSE) = false := by
  simp [TRAVERSE, Ne.symm hd, Ne.symm hf]

/-- A filename with the `.pdf` suffix is not the traversal marker. -/
lemma endswith_pdf_ne_dotdot (f : String) (hf : endswith f ".pdf" = true) :
    f ≠ ".." := by
  intro heq
  subst heq
  exact absurd hf (by decide)

/-! ## Claim theorems -/

/-- C1: for every user (authenticated or not, including superusers) and
every requested path that is absolute or has a `..` part, the decision of
`private_media_permissions` is deny. -/
theorem c1_absolute_or_traversal_always_denied (db : Db) (u : User)
    (p : String)
    (h : is_absolute p = true ∨ (pathParts p).contains TRAVERSE = true) :
    (private_media_permissions db u p).1 = Except.ok false := by
  cases hauth : u.is_authenticated
  · simp [pmp_unauth db u p hauth]
  · rcases h with h | h
    · simp [pmp_abs db u p hauth h]
    · cases habs : is_absolute p
      · simp [pmp_trav db u p hauth habs h]
      · simp [pmp_abs db u p hauth habs]

/-- Witness for C1: an authenticated superuser with every role flag set,
requesting `quotes/../secret.pdf`, is denied. -/
theorem c1_witness :
    (is_absolute "quotes/../secret.pdf" = true ∨
      (pathParts "quotes/../secret.pdf").contains TRAVERSE = true) ∧
    (private_media_permissions ⟨[]⟩ ⟨true, true, true, true, 1⟩
      "quotes/../secret.pdf").1 = Except.ok false :=
  ⟨Or.inr (by decide),
   c1_absolute_or_traversal_always_denied ⟨[]⟩ ⟨true, true, true, true, 1⟩
     "quotes/../secret.pdf" (Or.inr (by decide))⟩

/-- C5: an authenticated superuser is allowed on every relative path
without a `..` part, whether or not the path matches any document
category. -/
theorem c5_superuser_allowed (db : Db) (u : User) (p : String)
    (hauth : u.is_authenticated = true) (hsu : u.is_superuser = true)
    (habs : is_absolute p = false)
    (htrav : (pathParts p).contains TRAVERSE = false) :
    (private_media_permissions db u p).1 = Except.ok true := by
  rw [pmp_eval db u p hauth habs htrav,
    access_allowed_su db u (pathParts p) hsu]

/-- Witness for C5: a superuser requesting the category-less, one-segment
path `nonsense.bin` is allowed (and in particular no exception occurs). -/
theorem c5_witness :
    (private_media_permissions ⟨[]⟩ ⟨true, true, false, false, 1⟩
      "nonsense.bin").1 = Except.ok true :=
  c5_superuser_allowed ⟨[]⟩ ⟨true, true, false, false, 1⟩ "nonsense.bin"
    rfl rfl (by decide) (by decide)

/-- C6: an authenticated contractor (Marnie) is allowed on every valid
document path — a two-part path whose directory is one of the four
category directories and whose filename ends in `.pdf` — for every state
of the job table. -/
theorem c6_contractor_allowed_on_valid_doc_path (db : Db) (u : User)
    (p d f : String) (hauth : u.is_authenticated = true)
    (hm : u.is_marnie = true) (hp : pathParts p = [d, f])
    (hd : d = "quotes" ∨ d = "deposit_pops" ∨ d = "invoices" ∨
      d = "final_payment_pops")
    (hf : endswith f ".pdf" = true) :
    (private_media_permissions db u p).1 = Except.ok true := by
  have hds : d ≠ "/" := by rcases hd with h | h | h | h <;> subst h <;> decide
  have hdt : d ≠ ".." := by rcases hd with h | h | h | h <;> subst h <;> decide
  have habs : is_absolute p = false := is_absolute_false_of_parts p d f hp hds
  have htrav : (pathParts p).contains TRAVERSE = false := by
    rw [hp]
    exact contains_traverse_two d f hdt (endswith_pdf_ne_dotdot f hf)
  rw [pmp_eval db u p hauth habs htrav, hp]
  cases hsu : u.is_superuser
  · rw [access_allowed_two db u d f hsu]
    rcases hd with h | h | h | h <;> subst h <;>
      simp [hf, hm, accessible_marnie, liftOk]
  · rw [access_allowed_su db u [d, f] hsu]

/-- Witness for C6: the contractor may fetch `invoices/i.pdf` with an
empty job table (no job lookup restricts the contractor). -/
theorem c6_witness :
    (private_media_permissions ⟨[]⟩ ⟨true, false, true, false, 2⟩
      "invoices/i.pdf").1 = Except.ok true :=
  c6_contractor_allowed_on_valid_doc_path ⟨[]⟩ ⟨true, false, true, false, 2⟩
    "invoices/i.pdf" "invoices" "i.pdf" rfl rfl (by decide)
    (Or.inr (Or.inr (Or.inl rfl))) (by decide)

/-- C8: the authorization check is read-only — it returns the job table
unchanged — and repeating it on the state it returns yields the same
result and state (purity over the current data). -/
theorem c8_read_only_and_idempotent (db : Db) (u : User) (p : String) :
    (private_media_permissions db u p).2 = db ∧
      private_media_permissions ((private_media_permissions db u p).2) u p =
        private_media_permissions db u p := by
  refine ⟨pmp_snd db u p, ?_⟩
  rw [pmp_snd db u p]

/-- C9: a user with both the contractor flag and the agent flag is
allowed on every valid document path — the contractor branch precedes
the agent ownership branch, which is therefore never reached. -/
theorem c9_contractor_flag_shadows_agent_ownership (db : Db) (u : User)
    (p d f : String) (hauth : u.is_authenticated = true)
    (hm : u.is_marnie = true) (ha : u.is_agent = true)
    (hp : pathParts p = [d, f])
    (hd : d = "quotes" ∨ d = "deposit_pops" ∨ d = "invoices" ∨
      d = "final_payment_pops")
    (hf : endswith f ".pdf" = true) :
    (private_media_permissions db u p).1 = Except.ok true := by
  have hds : d ≠ "/" := by rcases hd with h | h | h | h <;> subst h <;> decide
  have hdt : d ≠ ".." := by rcases hd with h | h | h | h <;> subst h <;> decide
  have habs : is_absolute p = false := is_absolute_false_of_parts p d f hp hds
  have htrav : (pathParts p).contains TRAVERSE = false := by
    rw [hp]
    exact contains_traverse_two d f hdt (endswith_pdf_ne_dotdot f hf)
  rw [pmp_eval db u p hauth habs htrav, hp]
  cases hsu : u.is_superuser
  · rw [access_allowed_two db u d f hsu]
    rcases hd with h | h | h | h <;> subst h <;>
      simp [hf, hm, accessible_marnie, liftOk]
  · rw [access_allowed_su db u [d, f] hsu]

/-- Witness for C9: a marnie-and-agent user (id 1) fetches
`quotes/a.pdf` even though the unique matching job belongs to the
different agent with id 2. -/
theorem c9_witness :
    (private_media_permissions ⟨[⟨2, "quotes/a.pdf", "", "", ""⟩]⟩
      ⟨true, false, true, true, 1⟩ "quotes/a.pdf").1 = Except.ok true :=
  c9_contractor_flag_shadows_agent_ownership
    ⟨[⟨2, "quotes/a.pdf", "", "", ""⟩]⟩ ⟨true, false, true, true, 1⟩
    "quotes/a.pdf" "quotes" "a.pdf" rfl rfl rfl (by decide) (Or.inl rfl)
    (by decide)

/-- Counterexample to C2: the contractor (authenticated, `is_marnie`,
not a superuser) requesting the relative, non-traversing, unmatched path
`quotes/abc.txt` is denied, not allowed — classification happens before
the contractor branch. -/
theorem c2_counterexample :
    (private_media_permissions ⟨[]⟩ ⟨true, false, true, false, 1⟩
      "quotes/abc.txt").1 = Except.ok false := by decide

/-- C2 as amended: for a contractor who is not a superuser and a
relative two-part path with no `..` part, the decision equals the
category classification itself — allow exactly when the directory is one
of the four category directories and the filename ends in `.pdf`; an
unmatched path such as `quotes/abc.txt` is denied. -/
theorem c2_amended_contractor_gated_by_category (db : Db) (u : User)
    (p d f : String) (hauth : u.is_authenticated = true)
    (hsu : u.is_superuser = false) (hm : u.is_marnie = true)
    (hp : pathParts p = [d, f]) (habs : is_absolute p = false)
    (hd : d ≠ "..") (hf : f ≠ "..") :
    (private_media_permissions db u p).1 =
      Except.ok ((d == "quotes" || d == "deposit_pops" || d == "invoices" ||
        d == "final_payment_pops") && endswith f ".pdf") := by
  have htrav : (pathParts p).contains TRAVERSE = false := by
    rw [hp]
    exact contains_traverse_two d f hd hf
  rw [pmp_eval db u p hauth habs htrav, hp, access_allowed_two db u d f hsu]
  cases hpdf : endswith f ".pdf"
  · simp [hpdf]
  · cases hq : d == "quotes"
    · cases hdp : d == "deposit_pops"
      · cases hinv : d == "invoices"
        · cases hfp : d == "final_payment_pops"
          · simp [hq, hdp, hinv, hfp, hpdf]
          · simp [hq, hdp, hinv, hfp, hpdf, hm, accessible_marnie, liftOk]
        · simp [hq, hdp, hinv, hpdf, hm, accessible_marnie, liftOk]
      · simp [hq, hdp, hpdf, hm, accessible_marnie, liftOk]
    · simp [hq, hpdf, hm, accessible_marnie, liftOk]

/-- Witness for the amended C2: the contractor requesting the unmatched
`quotes/abc.txt` is denied. -/
theorem c2_amended_witness :
    (private_media_permissions ⟨[]⟩ ⟨true, false, true, false, 7⟩
      "quotes/abc.txt").1 = Except.ok false :=
  c2_amended_contractor_gated_by_category ⟨[]⟩ ⟨true, false, true, false, 7⟩
    "quotes/abc.txt" "quotes" "abc.txt" rfl rfl rfl (by decide) rfl
    (by decide) (by decide)

/-- Counterexample to C3: an authenticated agent requesting the relative
one-segment path `abc` makes the check raise `ValueError` (from the
two-value unpacking of `path.parts`) instead of returning a boolean. -/
theorem c3_counterexample :
    (private_media_permissions ⟨[]⟩ ⟨true, false, false, true, 1⟩
      "abc").1 = Except.error PyExn.valueError := by decide

/-- C3 as amended: the check raises (`ValueError`) exactly when an
authenticated non-superuser requests a relative, non-traversing path
that does not have exactly two parts; in every other case — superusers,
unauthenticated principals, absolute or traversing paths, two-part
paths — it returns a boolean. -/
theorem c3_amended_exception_characterization (db : Db) (u : User)
    (p : String) :
    (private_media_permissions db u p).1 = Except.error PyExn.valueError ↔
      (u.is_authenticated = true ∧ u.is_superuser = false ∧
       is_absolute p = false ∧ (pathParts p).contains TRAVERSE = false ∧
       (pathParts p).length ≠ 2) := by
  cases hauth : u.is_authenticated
  · simp [pmp_unauth db u p hauth, hauth]
  · cases habs : is_absolute p
    · cases htrav : (pathParts p).contains TRAVERSE
      · rw [pmp_eval db u p hauth habs htrav]
        cases hsu : u.is_superuser
        · by_cases hlen : (pathParts p).length = 2
          · obtain ⟨d, f, hp⟩ := List.length_eq_two.mp hlen
            apply iff_of_false
            · rw [hp, access_allowed_two db u d f hsu]
              split
              · simp [liftOk]
              split
              · simp [liftOk]
              split
              · simp [liftOk]
              split
              · simp [liftOk]
              · simp
            · rintro ⟨-, -, -, -, h5⟩
              exact h5 hlen
          · rw [access_allowed_bad_shape db u (pathParts p) hsu hlen]
            simp [hauth, hsu, habs, htrav, hlen]
        · simp [access_allowed_su db u (pathParts p) hsu, hsu]
      · simp [pmp_trav db u p hauth habs htrav, htrav]
    · simp [pmp_abs db u p hauth habs, habs]

/-- C4: an authenticated agent (not a superuser, not the contractor)
requesting a valid document path is allowed iff exactly one job row has
the category's field equal to the path and that job's `agent` is the
requesting user; zero or several matching rows deny. -/
theorem c4_agent_allowed_iff_unique_owned_job (db : Db) (u : User)
    (p d f : String) (hauth : u.is_authenticated = true)
    (hsu : u.is_superuser = false) (hm : u.is_marnie = false)
    (ha : u.is_agent = true) (hp : pathParts p = [d, f])
    (hd : d = "quotes" ∨ d = "deposit_pops" ∨ d = "invoices" ∨
      d = "final_payment_pops")
    (hf : endswith f ".pdf" = true) :
    ((private_media_permissions db u p).1 = Except.ok true ↔
      ∃ j, db.jobs.filter
          (fun j => j.getField (categoryField d) == strOfParts [d, f]) =
          [j] ∧ j.agent = u.id) := by
  have hds : d ≠ "/" := by rcases hd with h | h | h | h <;> subst h <;> decide
  have hdt : d ≠ ".." := by rcases hd with h | h | h | h <;> subst h <;> decide
  have habs : is_absolute p = false := is_absolute_false_of_parts p d f hp hds
  have htrav : (pathParts p).contains TRAVERSE = false := by
    rw [hp]
    exact contains_traverse_two d f hdt (endswith_pdf_ne_dotdot f hf)
  rw [pmp_eval db u p hauth habs htrav, hp, access_allowed_two db u d f hsu]
  rcases hd with h | h | h | h <;> subst h
  · have hcf : categoryField "quotes" = FieldName.quote := by decide
    rw [hcf, if_pos (by simp [hf])]
    refine Iff.trans ?_ (accessible_agent_iff db u ["quotes", f]
      FieldName.quote hm ha)
    simp [liftOk]
  · have hcf : categoryField "deposit_pops" =
        FieldName.deposit_proof_of_payment := by decide
    rw [hcf, if_neg (by simp), if_pos (by simp [hf])]
    refine Iff.trans ?_ (accessible_agent_iff db u ["deposit_pops", f]
      FieldName.deposit_proof_of_payment hm ha)
    simp [liftOk]
  · have hcf : categoryField "invoices" = FieldName.invoice := by decide
    rw [hcf, if_neg (by simp), if_neg (by simp), if_pos (by simp [hf])]
    refine Iff.trans ?_ (accessible_agent_iff db u ["invoices", f]
      FieldName.invoice hm ha)
    simp [liftOk]
  · have hcf : categoryField "final_payment_pops" =
        FieldName.final_payment_pop := by decide
    rw [hcf, if_neg (by simp), if_neg (by simp), if_neg (by simp),
      if_pos (by simp [hf])]
    refine Iff.trans ?_ (accessible_agent_iff db u ["final_payment_pops", f]
      FieldName.final_payment_pop hm ha)
    simp [liftOk]

/-- Witness for C4: agent bob (id 1) owns the unique job whose `quote`
field is `quotes/abc.pdf`, so requesting that path is allowed. -/
theorem c4_witness :
    (private_media_permissions ⟨[⟨1, "quotes/abc.pdf", "", "", ""⟩]⟩
      ⟨true, false, false, true, 1⟩ "quotes/abc.pdf").1 = Except.ok true :=
  (c4_agent_allowed_iff_unique_owned_job
      ⟨[⟨1, "quotes/abc.pdf", "", "", ""⟩]⟩ ⟨true, false, false, true, 1⟩
      "quotes/abc.pdf" "quotes" "abc.pdf" rfl rfl rfl rfl (by decide)
      (Or.inl rfl) (by decide)).mpr
    ⟨⟨1, "quotes/abc.pdf", "", "", ""⟩, by decide, rfl⟩

/-- C7: a user who is neither a superuser nor the contractor (agents,
role-less users, unauthenticated principals) is denied on every two-part
path whose directory is not one of the four category directories or
whose filename does not end in `.pdf`. -/
theorem c7_unmatched_path_denied (db : Db) (u : User) (p d f : String)
    (hsu : u.is_superuser = false) (hm : u.is_marnie = false)
    (hp : pathParts p = [d, f])
    (h : (¬(d = "quotes" ∨ d = "deposit_pops" ∨ d = "invoices" ∨
            d = "final_payment_pops")) ∨ endswith f ".pdf" = false) :
    (private_media_permissions db u p).1 = Except.ok false := by
  cases hauth : u.is_authenticated
  · simp [pmp_unauth db u p hauth]
  · cases habs : is_absolute p
    · cases htrav : (pathParts p).contains TRAVERSE
      · rw [pmp_eval db u p hauth habs htrav, hp,
          access_allowed_two db u d f hsu]
        rcases h with h | h
        · push_neg at h
          obtain ⟨h1, h2, h3, h4⟩ := h
          simp [h1, h2, h3, h4]
        · simp [h]
      · simp [pmp_trav db u p hauth habs htrav]
    · simp [pmp_abs db u p hauth habs]

/-- Witness for C7: an authenticated user with no role flag requesting
`stuff/x.pdf` (unknown directory) is denied. -/
theorem c7_witness :
    (private_media_permissions ⟨[]⟩ ⟨true, false, false, false, 3⟩
      "stuff/x.pdf").1 = Except.ok false :=
  c7_unmatched_path_denied ⟨[]⟩ ⟨true, false, false, false, 3⟩
    "stuff/x.pdf" "stuff" "x.pdf" rfl rfl (by decide) (Or.inl (by decide))

/-- C10: classification is exact and case-sensitive — a two-part path
whose directory is a case variation of a category directory (equal after
lowercasing but not equal exactly), or whose filename ends in a case
variation of `.pdf` but not in `.pdf` itself, is unclassified and denied
for every non-superuser, whatever the other role flags. -/
theorem c10_case_variations_denied (db : Db) (u : User) (p d f : String)
    (hsu : u.is_superuser = false) (hp : pathParts p = [d, f])
    (h : ((pyLower d = "quotes" ∨ pyLower d = "deposit_pops" ∨
           pyLower d = "invoices" ∨ pyLower d = "final_payment_pops") ∧
          ¬(d = "quotes" ∨ d = "deposit_pops" ∨ d = "invoices" ∨
            d = "final_payment_pops")) ∨
         (endswith (pyLower f) ".pdf" = true ∧ endswith f ".pdf" = false)) :
    (private_media_permissions db u p).1 = Except.ok false := by
  cases hauth : u.is_authenticated
  · simp [pmp_unauth db u p hauth]
  · cases habs : is_absolute p
    · cases htrav : (pathParts p).contains TRAVERSE
      · rw [pmp_eval db u p hauth habs htrav, hp,
          access_allowed_two db u d f hsu]
        rcases h with ⟨-, h⟩ | ⟨-, h⟩
        · push_neg at h
          obtain ⟨h1, h2, h3, h4⟩ := h
          simp [h1, h2, h3, h4]
        · simp [h]
      · simp [pmp_trav db u p hauth habs htrav]
    · simp [pmp_abs db u p hauth habs]

/-- Witness for C10: even the contractor is denied on
`Quotes/abc.pdf` — the capitalized directory fails exact matching. -/
theorem c10_witness :
    (private_media_permissions ⟨[]⟩ ⟨true, false, true, true, 1⟩
      "Quotes/abc.pdf").1 = Except.ok false :=
  c10_case_variations_denied ⟨[]⟩ ⟨true, false, true, true, 1⟩
    "Quotes/abc.pdf" "Quotes" "abc.pdf" rfl (by decide)
    (Or.inl ⟨Or.inl (by decide), by decide⟩)
